import Mathlib

/-!
Verification of the block-classification and block-extraction core of the
dxf-parser repository.  The Python sources are shallowly embedded: floats
become exact rationals, dictionaries become records with `Option` fields,
and the two external collaborators that are not part of the core — the
regular-expression engine used by `_match_keywords` and the trigonometric
library used by the geometry processor — are abstracted as function
parameters.  Everything else is translated directly from
`src/ai/rule_based_classifier.py`, `src/ai/cache_manager.py`,
`src/core/geometry_processor.py` and `src/core/block_extractor.py`.
-/

namespace DxfParser

/-- Result record of a classification (`Classification` in
`src/models/extracted_entity.py`): category and type tags, a confidence
score, a free-text reasoning string and the provenance method tag. -/
structure Classification where
  category : String
  type : String
  confidence : ℚ
  reasoning : String
  method : String := "llm"
  deriving DecidableEq

/-- The optional `context` dictionary handed to `classify`: an optional
`area` and an optional `vertex_count`.  `none` models a missing key. -/
structure Context where
  area : Option ℚ := none
  vertex_count : Option ℤ := none
  deriving DecidableEq

/-- One classification rule of the rule table (`_build_rules`): category
and type label, base confidence, the list of name patterns, and the
optional area and vertex-count envelopes. -/
structure Rule where
  category : String
  type : String
  confidence : ℚ
  keywords : List String
  area_range : Option (ℚ × ℚ) := none
  vertex_range : Option (ℤ × ℤ) := none
  deriving DecidableEq

/-- The external regular-expression engine:
`psearch pattern text` models `re.compile(pattern, re.IGNORECASE).search(text)`. -/
abbrev PatternSearch : Type := String → String → Bool

/-- The external percent formatter used inside reasoning strings
(Python format spec `.0%`). -/
abbrev PercentFormat : Type := ℚ → String

/-- Python `str.split('$')` on the character list: splits at every `$`,
keeping empty segments. -/
def split_dollar_aux : List Char → List Char → List String
  | [], acc => [String.mk acc.reverse]
  | c :: rest, acc =>
    if c = '$' then String.mk acc.reverse :: split_dollar_aux rest []
    else split_dollar_aux rest (c :: acc)

/-- `block_name.split('$')` as used by `_match_keywords`. -/
def split_dollar (s : String) : List String := split_dollar_aux s.data []

/-- `RuleBasedClassifier._match_keywords`: 1.0 as soon as some keyword
pattern matches the full block name or one of its `$`-separated parts,
otherwise 0.0. -/
def match_keywords (psearch : PatternSearch) (block_name : String)
    (keywords : List String) : ℚ :=
  if keywords.any (fun keyword =>
      psearch keyword block_name
        || (split_dollar block_name).any (fun part => psearch keyword part))
  then 1 else 0

/-- `RuleBasedClassifier._match_geometry`: starts from score 1.0 and
multiplies in one factor per declared constraint.  A constraint is only
checked when the rule declares the range and the context value is truthy
in Python (`context.get('area')`), so a missing value or a supplied value
of exactly 0 skips the check. -/
def match_geometry (context : Context) (rule : Rule) : ℚ :=
  let score : ℚ := 1
  let score :=
    match rule.area_range, context.area with
    | some (min_area, max_area), some area =>
      if area = 0 then score
      else if min_area ≤ area ∧ area ≤ max_area then score * 1
      else if area < min_area * 0.5 ∨ max_area * 2 < area then score * 0.3
      else score * 0.7
    | _, _ => score
  let score :=
    match rule.vertex_range, context.vertex_count with
    | some (min_v, max_v), some vertex_count =>
      if vertex_count = 0 then score
      else if min_v ≤ vertex_count ∧ vertex_count ≤ max_v then score * 1
      else score * 0.5
    | _, _ => score
  score

/-- The final confidence computed for one rule inside `_classify_by_rules`:
`rule['confidence'] * match_score * geo_score`. -/
def final_score (psearch : PatternSearch) (block_name : String)
    (context : Context) (rule : Rule) : ℚ :=
  rule.confidence * match_keywords psearch block_name rule.keywords *
    match_geometry context rule

/-- The reasoning string built for a rule match: the keyword contribution,
plus the geometry contribution when the geometry score is below 1.0. -/
def mk_reasoning (pct : PercentFormat) (match_score geo_score : ℚ) : String :=
  "키워드 매칭: " ++ pct match_score ++
    (if geo_score < 1 then ", 기하학 검증: " ++ pct geo_score else "")

/-- The `Classification` object stored for a winning rule inside the scan
loop of `_classify_by_rules`. -/
def rule_classification (psearch : PatternSearch) (pct : PercentFormat)
    (block_name : String) (context : Context) (rule : Rule) : Classification :=
  { category := rule.category
    type := rule.type
    confidence := final_score psearch block_name context rule
    reasoning := mk_reasoning pct (match_keywords psearch block_name rule.keywords)
      (match_geometry context rule)
    method := "rule-based" }

/-- The fallback result of `_classify_by_rules` when no rule wins. -/
def no_match_classification : Classification :=
  { category := "other"
    type := "unclassified"
    confidence := 0.3
    reasoning := "규칙 매칭 실패"
    method := "rule-based" }

/-- The rule-scan loop of `_classify_by_rules`: walks the table in order,
tracking the best match and its confidence; a later rule replaces the
incumbent only when its final confidence is strictly greater. -/
def classify_scan (psearch : PatternSearch) (pct : PercentFormat)
    (block_name : String) (context : Context) :
    List Rule → Option Classification → ℚ → Option Classification × ℚ
  | [], best_match, best_confidence => (best_match, best_confidence)
  | rule :: rest, best_match, best_confidence =>
    if 0 < match_keywords psearch block_name rule.keywords then
      if best_confidence < final_score psearch block_name context rule then
        classify_scan psearch pct block_name context rest
          (some (rule_classification psearch pct block_name context rule))
          (final_score psearch block_name context rule)
      else classify_scan psearch pct block_name context rest best_match best_confidence
    else classify_scan psearch pct block_name context rest best_match best_confidence

/-- `RuleBasedClassifier._classify_by_rules`: returns the best match when
one exists and its confidence exceeds 0.5, else the fallback. -/
def classify_by_rules (psearch : PatternSearch) (pct : PercentFormat)
    (rules : List Rule) (block_name : String) (context : Context) : Classification :=
  match classify_scan psearch pct block_name context rules none 0 with
  | (some best_match, best_confidence) =>
    if 0.5 < best_confidence then best_match else no_match_classification
  | (none, _) => no_match_classification

/-- One entry of the classification cache (`CacheManager`): the four
persisted fields plus the insertion timestamp. -/
structure CacheEntry where
  category : String
  type : String
  confidence : ℚ
  reasoning : String
  cached_at : Nat := 0
  deriving DecidableEq

/-- The in-memory classification cache: a name-keyed map. -/
abbrev ClassificationCache : Type := String → Option CacheEntry

/-- `CacheManager.set`: unconditional overwrite, last write wins. -/
def cache_set (cache : ClassificationCache) (block_name : String)
    (entry : CacheEntry) : ClassificationCache :=
  fun k => if k = block_name then some entry else cache k

/-- `RuleBasedClassifier.classify`: cache probe, rule scan, cache store.
The state (the cache) is passed explicitly; `now` models
`datetime.now()` used for the stored timestamp.  Stats counters and
logging are observability only and are elided. -/
def classify (psearch : PatternSearch) (pct : PercentFormat) (rules : List Rule)
    (enable_cache : Bool) (now : Nat) (cache : ClassificationCache)
    (block_name : String) (context : Context) :
    Classification × ClassificationCache :=
  if enable_cache then
    match cache block_name with
    | some cached =>
      ({ category := cached.category
         type := cached.type
         confidence := cached.confidence
         reasoning := cached.reasoning
         method := "cached" }, cache)
    | none =>
      let result := classify_by_rules psearch pct rules block_name context
      (result,
        cache_set cache block_name
          { category := result.category
            type := result.type
            confidence := result.confidence
            reasoning := result.reasoning
            cached_at := now })
  else (classify_by_rules psearch pct rules block_name context, cache)

/-- The rule table of `RuleBasedClassifier._build_rules`, transcribed in
declaration order (order is semantically load-bearing). -/
def build_rules : List Rule :=
  [ { category := "circulation", type := "exit", confidence := 0.95,
      keywords := ["FSD", "FSD-\\d+", "FIRE.?SAFETY", "소방", "방화", "비상"],
      area_range := some (1, 100000000) },
    { category := "circulation", type := "stairs", confidence := 0.98,
      keywords := ["계단", "STAIR", "STEP", "STA", "core.*계단", "층계",
        "B[0-9]+F계단", "STA_"],
      area_range := some (5, 100000000) },
    { category := "parking", type := "disabled", confidence := 0.95,
      keywords := ["장애인", "DISABLED", "HANDICAP", "HANDICAPPED", "배리어프리",
        "BARRIER.?FREE", "ACCESSIBLE", "장애", "DISABLE"],
      area_range := some (15000000, 20000000) },
    { category := "parking", type := "electric", confidence := 0.95,
      keywords := ["전기차", "ELECTRIC", "EV", "E.?V", "환경친화", "ECO",
        "CHARGE", "충전", "PARK.?EC", "EC.?PARK"],
      area_range := some (10000000, 15000000) },
    { category := "parking", type := "women", confidence := 0.95,
      keywords := ["여성", "WOMEN", "WOMAN", "FEMALE", "가족", "FAMILY", "배려",
        "교통약자", "PRIORITY"],
      area_range := some (10000000, 15000000) },
    { category := "parking", type := "compact", confidence := 0.95,
      keywords := ["경차", "COMPACT", "SMALL", "MINI", "소형", "LIGHT"],
      area_range := some (7000000, 10000000) },
    { category := "parking", type := "large", confidence := 0.90,
      keywords := ["확장", "LARGE", "EXTENDED", "EXPAND", "SUV", "대형", "BIG"],
      area_range := some (13000000, 18000000) },
    { category := "parking", type := "basic", confidence := 0.90,
      keywords := ["일반", "NORMAL", "STANDARD", "REGULAR", "BASIC", "STD",
        "PARK", "주차", "PARKING", "CAR.?SPACE"],
      area_range := some (10000000, 15000000) },
    { category := "structure", type := "column", confidence := 0.95,
      keywords := ["기둥", "COLUMN", "COL", "PILLAR", "POST", "C\\d+", "^C-",
        "PIER", "\\d+x\\d+", "^\\d\x7b3,4\x7d$"],
      area_range := some (100000, 1000000000), vertex_range := some (4, 100) },
    { category := "structure", type := "wall", confidence := 0.95,
      keywords := ["벽", "WALL", "PARTITION", "BARRIER", "외벽", "EXTERIOR",
        "내벽", "INTERIOR", "FENCE", "칸막이"],
      area_range := some (0.1, 100) },
    { category := "structure", type := "beam", confidence := 0.90,
      keywords := ["보", "BEAM", "GIRDER", "JOIST", "B\\d+", "^B-"],
      area_range := some (0.5, 10) },
    { category := "circulation", type := "entrance", confidence := 0.95,
      keywords := ["출입구", "ENTRANCE", "ENTRY", "ACCESS", "GATE", "입구",
        "게이트", "IN", "INGRESS", "자동문", "AUTO.?DOOR", "접이문", "FOLDING",
        "슬라이딩", "SLIDING"],
      area_range := some (10000, 50000000) },
    { category := "circulation", type := "exit", confidence := 0.95,
      keywords := ["출구", "EXIT", "EGRESS", "OUT", "비상구", "EMERGENCY",
        "ESCAPE", "SSD", "SFD"],
      area_range := some (10000, 50000000) },
    { category := "circulation", type := "ramp", confidence := 0.95,
      keywords := ["경사로", "RAMP", "SLOPE", "INCLINE", "GRADIENT", "램프"],
      area_range := some (10, 100) },
    { category := "circulation", type := "stairs", confidence := 0.95,
      keywords := ["계단", "STAIRS", "STAIR", "STEP", "STAIRWAY", "STAIRCASE"],
      area_range := some (5, 30) },
    { category := "circulation", type := "elevator", confidence := 0.95,
      keywords := ["엘리베이터", "ELEVATOR", "LIFT", "EV", "승강기", "HOIST",
        "E.?L"],
      area_range := some (3, 10) },
    { category := "facility", type := "restroom", confidence := 0.95,
      keywords := ["화장실", "RESTROOM", "TOILET", "WC", "변기", "세면대",
        "SINK", "소변기", "URIN", "샤워", "SHOWER", "욕실", "WASH", "BASIN",
        "LAVATORY"],
      area_range := some (1000, 50000000) },
    { category := "facility", type := "storage", confidence := 0.90,
      keywords := ["신발장", "LOCKER", "CABINET", "SHOE", "수납", "STORAGE",
        "보관", "창고"],
      area_range := some (100000, 20000000) },
    { category := "facility", type := "mechanical", confidence := 0.90,
      keywords := ["기계실", "MECHANICAL", "MACHINE", "MECH", "설비실",
        "EQUIPMENT", "UTILITY", "M/R", "MR", "제연"],
      area_range := some (1000000, 50000000) },
    { category := "facility", type := "electrical", confidence := 0.90,
      keywords := ["전기실", "ELECTRICAL", "ELECTRIC", "ELEC", "POWER", "E/R",
        "ER", "배전"],
      area_range := some (1000000, 50000000) },
    { category := "facility", type := "recreation", confidence := 0.85,
      keywords := ["골프", "GOLF", "운동", "GYM", "FITNESS", "휴게", "레저",
        "RECREATION"],
      area_range := some (5000000, 100000000) },
    { category := "facility", type := "room", confidence := 0.70,
      keywords := ["실", "ROOM", "SPACE", "AREA", "ZONE", "RM", "B\\d\x7b3\x7d",
        "B-\\d\x7b3\x7d"],
      area_range := some (100000, 100000000) } ]

/-! Derived (specification-side) notions used to state the claims about
the rule scan: the running maximum of the final scores and the earliest
rule attaining it. -/

/-- Maximum of `f` over a rule list, folded from `init` exactly like the
scan loop folds its running best confidence. -/
def fold_max_score (f : Rule → ℚ) (init : ℚ) (rules : List Rule) : ℚ :=
  rules.foldl (fun acc rule => max acc (f rule)) init

/-- The best final score over a rule table (0 when nothing matches). -/
def best_final_score (psearch : PatternSearch) (block_name : String)
    (context : Context) (rules : List Rule) : ℚ :=
  fold_max_score (final_score psearch block_name context) 0 rules

/-- The earliest rule of the table attaining the best final score. -/
def best_rule (psearch : PatternSearch) (block_name : String)
    (context : Context) (rules : List Rule) : Option Rule :=
  rules.find? (fun rule =>
    decide (final_score psearch block_name context rule =
      best_final_score psearch block_name context rules))

/-! Lemmas characterising the rule scan. -/

lemma match_keywords_eq_zero_or_one (psearch : PatternSearch) (block_name : String)
    (keywords : List String) :
    match_keywords psearch block_name keywords = 0 ∨
      match_keywords psearch block_name keywords = 1 := by
  unfold match_keywords
  split
  · right; rfl
  · left; rfl

lemma final_score_of_keywords_zero (psearch : PatternSearch) (block_name : String)
    (context : Context) (rule : Rule)
    (h : match_keywords psearch block_name rule.keywords = 0) :
    final_score psearch block_name context rule = 0 := by
  simp [final_score, h]

lemma fold_max_score_cons (f : Rule → ℚ) (init : ℚ) (rule : Rule) (rules : List Rule) :
    fold_max_score f init (rule :: rules) = fold_max_score f (max init (f rule)) rules :=
  rfl

/-- The second component of the scan is the running maximum of the final
scores, provided the incoming best confidence is nonnegative. -/
lemma classify_scan_snd (psearch : PatternSearch) (pct : PercentFormat)
    (block_name : String) (context : Context) :
    ∀ (rules : List Rule) (best_match : Option Classification) (best_confidence : ℚ),
      0 ≤ best_confidence →
      (classify_scan psearch pct block_name context rules best_match best_confidence).2 =
        fold_max_score (final_score psearch block_name context) best_confidence rules := by
  intro rules
  induction rules with
  | nil => intro bm bc _; rfl
  | cons rule rest ih =>
    intro bm bc hbc
    rcases match_keywords_eq_zero_or_one psearch block_name rule.keywords with h0 | h1
    · have hf : final_score psearch block_name context rule = 0 :=
        final_score_of_keywords_zero psearch block_name context rule h0
      simp only [classify_scan, h0]
      rw [if_neg (lt_irrefl (0 : ℚ)), ih bm bc hbc, fold_max_score_cons, hf,
        max_eq_left hbc]
    · simp only [classify_scan, h1]
      rw [if_pos (by norm_num : (0 : ℚ) < 1)]
      by_cases hlt : bc < final_score psearch block_name context rule
      · rw [if_pos hlt, ih _ _ (le_of_lt (lt_of_le_of_lt hbc hlt)),
          fold_max_score_cons, max_eq_right (le_of_lt hlt)]
      · rw [if_neg hlt, ih bm bc hbc, fold_max_score_cons,
          max_eq_left (not_lt.mp hlt)]

lemma find?_append_none {α : Type} (p : α → Bool) (l₁ l₂ : List α)
    (h : l₁.find? p = none) : (l₁ ++ l₂).find? p = l₂.find? p := by
  induction l₁ with
  | nil => rfl
  | cons a l ih =>
    rw [List.cons_append]
    rcases hpa : p a with hf | ht
    · rw [List.find?_cons_of_neg _ (by simp [hpa])] at h
      rw [List.find?_cons_of_neg _ (by simp [hpa])]
      exact ih h
    · rw [List.find?_cons_of_pos _ hpa] at h
      exact absurd h (by simp)

/-- The first component of the scan: either nothing ever replaced the
incoming best match, or the scan strictly raised the best confidence and
the stored match is the classification of the earliest rule attaining the
final best confidence. -/
lemma classify_scan_fst (psearch : PatternSearch) (pct : PercentFormat)
    (block_name : String) (context : Context) :
    ∀ (rules : List Rule) (best_match : Option Classification) (best_confidence : ℚ),
      0 ≤ best_confidence →
      (((classify_scan psearch pct block_name context rules best_match best_confidence).2 =
            best_confidence ∧
        (classify_scan psearch pct block_name context rules best_match best_confidence).1 =
            best_match) ∨
       (best_confidence <
          (classify_scan psearch pct block_name context rules best_match best_confidence).2 ∧
        ∃ rule,
          rules.find? (fun r =>
              decide (final_score psearch block_name context r =
                (classify_scan psearch pct block_name context rules best_match
                  best_confidence).2)) = some rule ∧
          (classify_scan psearch pct block_name context rules best_match
              best_confidence).1 =
            some (rule_classification psearch pct block_name context rule))) := by
  intro rules
  induction rules with
  | nil => intro bm bc _; exact Or.inl ⟨rfl, rfl⟩
  | cons rule rest ih =>
    intro bm bc hbc
    rcases match_keywords_eq_zero_or_one psearch block_name rule.keywords with h0 | h1
    · -- keyword score 0: the rule is skipped
      have hf : final_score psearch block_name context rule = 0 :=
        final_score_of_keywords_zero psearch block_name context rule h0
      have hstep :
          classify_scan psearch pct block_name context (rule :: rest) bm bc =
            classify_scan psearch pct block_name context rest bm bc := by
        simp only [classify_scan, h0]
        rw [if_neg (lt_irrefl (0 : ℚ))]
      rw [hstep]
      rcases ih bm bc hbc with hl | ⟨hlt, r, hfind, hfst⟩
      · exact Or.inl hl
      · refine Or.inr ⟨hlt, r, ?_, hfst⟩
        rw [List.find?_cons_of_neg, hfind]
        have : final_score psearch block_name context rule ≠
            (classify_scan psearch pct block_name context rest bm bc).2 := by
          rw [hf]
          exact ne_of_lt (lt_of_le_of_lt hbc hlt)
        simp [this]
    · simp only [classify_scan, h1]
      rw [if_pos (by norm_num : (0 : ℚ) < 1)]
      by_cases hlt : bc < final_score psearch block_name context rule
      · -- the rule replaces the incumbent
        rw [if_pos hlt]
        have hnn : 0 ≤ final_score psearch block_name context rule :=
          le_of_lt (lt_of_le_of_lt hbc hlt)
        rcases ih (some (rule_classification psearch pct block_name context rule))
            (final_score psearch block_name context rule) hnn with ⟨he2, he1⟩ |
            ⟨hlt2, r, hfind, hfst⟩
        · refine Or.inr ⟨by rw [he2]; exact hlt, rule, ?_, he1⟩
          rw [he2]
          exact List.find?_cons_of_pos _ (by simp)
        · refine Or.inr ⟨lt_trans hlt hlt2, r, ?_, hfst⟩
          rw [List.find?_cons_of_neg, hfind]
          simp [ne_of_lt hlt2]
      · -- the rule does not improve on the incumbent
        rw [if_neg hlt]
        rcases ih bm bc hbc with hl | ⟨hlt2, r, hfind, hfst⟩
        · exact Or.inl hl
        · refine Or.inr ⟨hlt2, r, ?_, hfst⟩
          rw [List.find?_cons_of_neg, hfind]
          have : final_score psearch block_name context rule ≠
              (classify_scan psearch pct block_name context rest bm bc).2 :=
            ne_of_lt (lt_of_le_of_lt (not_lt.mp hlt) hlt2)
          simp [this]

lemma le_fold_max_score (f : Rule → ℚ) :
    ∀ (rules : List Rule) (init : ℚ), init ≤ fold_max_score f init rules := by
  intro rules
  induction rules with
  | nil => intro init; exact le_refl _
  | cons r rs ih =>
    intro init
    rw [fold_max_score_cons]
    exact le_trans (le_max_left _ _) (ih _)

lemma fold_max_score_le (f : Rule → ℚ) (M : ℚ) :
    ∀ (rules : List Rule) (init : ℚ), init ≤ M → (∀ r ∈ rules, f r ≤ M) →
      fold_max_score f init rules ≤ M := by
  intro rules
  induction rules with
  | nil => intro init h _; exact h
  | cons r rs ih =>
    intro init hinit hall
    rw [fold_max_score_cons]
    exact ih _ (max_le hinit (hall r (by simp))) (fun r' hr' => hall r' (by simp [hr']))

lemma le_fold_max_score_of_mem (f : Rule → ℚ) :
    ∀ (rules : List Rule) (init : ℚ) (r : Rule), r ∈ rules →
      f r ≤ fold_max_score f init rules := by
  intro rules
  induction rules with
  | nil => intro _ r h; simp at h
  | cons a rs ih =>
    intro init r hr
    rw [fold_max_score_cons]
    rcases List.mem_cons.mp hr with rfl | hr'
    · exact le_trans (le_max_right _ _) (le_fold_max_score f rs _)
    · exact ih _ r hr'

/-- The decision contract of `_classify_by_rules`: a best final score above
0.5 selects the earliest rule attaining it, anything else falls back. -/
lemma classify_by_rules_spec (psearch : PatternSearch) (pct : PercentFormat)
    (rules : List Rule) (block_name : String) (context : Context) :
    ((0.5 : ℚ) < best_final_score psearch block_name context rules →
      ∃ rule,
        best_rule psearch block_name context rules = some rule ∧
        classify_by_rules psearch pct rules block_name context =
          rule_classification psearch pct block_name context rule ∧
        final_score psearch block_name context rule =
          best_final_score psearch block_name context rules) ∧
    (best_final_score psearch block_name context rules ≤ 0.5 →
      classify_by_rules psearch pct rules block_name context =
        no_match_classification) := by
  have hsnd := classify_scan_snd psearch pct block_name context rules none 0 le_rfl
  have hfst := classify_scan_fst psearch pct block_name context rules none 0 le_rfl
  rcases hS : classify_scan psearch pct block_name context rules none 0 with ⟨bm, bc⟩
  rw [hS] at hsnd hfst
  dsimp only at hsnd hfst
  have hbest : best_final_score psearch block_name context rules = bc := hsnd.symm
  constructor
  · intro hgt
    rcases hfst with ⟨he2, _⟩ | ⟨_, rule, hfind, hbm⟩
    · exfalso
      rw [hbest, he2] at hgt
      norm_num at hgt
    · refine ⟨rule, ?_, ?_, ?_⟩
      · unfold best_rule
        rw [hbest]
        exact hfind
      · unfold classify_by_rules
        rw [hS, hbm]
        dsimp only
        rw [if_pos (hbest ▸ hgt)]
      · have hp := List.find?_some hfind
        rw [hbest]
        exact of_decide_eq_true hp
  · intro hle
    unfold classify_by_rules
    rw [hS]
    rcases hfst with ⟨_, hbm⟩ | ⟨_, rule, _, hbm⟩
    · rw [hbm]
    · rw [hbm]
      dsimp only
      rw [if_neg (not_lt.mpr (hbest ▸ hle))]

/-- Claim C1: for every block name and context, when no cache hit occurs
the classifier returns the best-scoring rule's category and type with the
computed best score as confidence and method tag `rule-based` exactly when
the best final score exceeds 0.5; otherwise — in particular whenever every
rule's final score is at most 0.5 — it returns category `other`, type
`unclassified`, confidence 0.3. -/
theorem claim1_rule_decision (psearch : PatternSearch) (pct : PercentFormat)
    (block_name : String) (context : Context) (rules : List Rule)
    (now : Nat) (cache : ClassificationCache) :
    ((0.5 : ℚ) < best_final_score psearch block_name context rules →
      ∃ rule,
        best_rule psearch block_name context rules = some rule ∧
        classify_by_rules psearch pct rules block_name context =
          rule_classification psearch pct block_name context rule ∧
        (classify_by_rules psearch pct rules block_name context).category =
          rule.category ∧
        (classify_by_rules psearch pct rules block_name context).type = rule.type ∧
        (classify_by_rules psearch pct rules block_name context).confidence =
          best_final_score psearch block_name context rules ∧
        (classify_by_rules psearch pct rules block_name context).method =
          "rule-based") ∧
    (best_final_score psearch block_name context rules ≤ 0.5 →
      classify_by_rules psearch pct rules block_name context =
        no_match_classification ∧
      (classify_by_rules psearch pct rules block_name context).category = "other" ∧
      (classify_by_rules psearch pct rules block_name context).type =
        "unclassified" ∧
      (classify_by_rules psearch pct rules block_name context).confidence = 0.3) ∧
    (cache block_name = none →
      (classify psearch pct rules true now cache block_name context).1 =
        classify_by_rules psearch pct rules block_name context) := by
  refine ⟨?_, ?_, ?_⟩
  · intro hgt
    obtain ⟨rule, hbr, hcls, hfsc⟩ :=
      (classify_by_rules_spec psearch pct rules block_name context).1 hgt
    refine ⟨rule, hbr, hcls, ?_, ?_, ?_, ?_⟩ <;> rw [hcls]
    · rfl
    · rfl
    · exact hfsc
    · rfl
  · intro hle
    have h := (classify_by_rules_spec psearch pct rules block_name context).2 hle
    exact ⟨h, by rw [h]; rfl, by rw [h]; rfl, by rw [h]; rfl⟩
  · intro hmiss
    simp [classify, hmiss]

/-- A literal pattern matcher used to instantiate the abstract
regular-expression collaborator in concrete computations: a pattern
matches exactly the identical text. -/
def psearch_lit : PatternSearch := fun pattern text => pattern == text

/-- Trivial percent formatter for concrete computations. -/
def pct0 : PercentFormat := fun _ => ""

/-- The empty classification context. -/
def no_context : Context := {}

set_option maxRecDepth 100000 in
/-- Witness for C1: on the real rule table, name `WALL` scores 0.95 through
the structure/wall rule, and name `ZZZ` matches nothing and falls back. -/
theorem claim1_rule_decision_witness :
    ((0.5 : ℚ) < best_final_score psearch_lit "WALL" no_context build_rules) ∧
    (∃ rule,
        best_rule psearch_lit "WALL" no_context build_rules = some rule ∧
        classify_by_rules psearch_lit pct0 build_rules "WALL" no_context =
          rule_classification psearch_lit pct0 "WALL" no_context rule ∧
        (classify_by_rules psearch_lit pct0 build_rules "WALL" no_context).category =
          rule.category ∧
        (classify_by_rules psearch_lit pct0 build_rules "WALL" no_context).type =
          rule.type ∧
        (classify_by_rules psearch_lit pct0 build_rules "WALL" no_context).confidence =
          best_final_score psearch_lit "WALL" no_context build_rules ∧
        (classify_by_rules psearch_lit pct0 build_rules "WALL" no_context).method =
          "rule-based") ∧
    (best_final_score psearch_lit "ZZZ" no_context build_rules ≤ 0.5) ∧
    (classify_by_rules psearch_lit pct0 build_rules "ZZZ" no_context =
      no_match_classification) :=
  ⟨by with_unfolding_all decide,
   (claim1_rule_decision psearch_lit pct0 "WALL" no_context build_rules 0
      (fun _ => none)).1 (by with_unfolding_all decide),
   by with_unfolding_all decide,
   ((claim1_rule_decision psearch_lit pct0 "ZZZ" no_context build_rules 0
      (fun _ => none)).2.1 (by with_unfolding_all decide)).1⟩

/-- Claim C2: during the rule scan a later rule replaces the incumbent
best match only when its final score is strictly greater; consequently,
when two rules tie for the best final score (and earlier rules score
strictly less), the classifier resolves to the rule appearing earlier in
table order. -/
theorem claim2_tie_break :
    (∀ (psearch : PatternSearch) (pct : PercentFormat) (block_name : String)
        (context : Context) (rule : Rule) (rest : List Rule)
        (best_match : Option Classification) (best_confidence : ℚ),
      final_score psearch block_name context rule ≤ best_confidence →
      classify_scan psearch pct block_name context (rule :: rest) best_match
          best_confidence =
        classify_scan psearch pct block_name context rest best_match
          best_confidence) ∧
    (∀ (psearch : PatternSearch) (pct : PercentFormat) (block_name : String)
        (context : Context) (pre mid post : List Rule) (r1 r2 : Rule),
      final_score psearch block_name context r1 =
        final_score psearch block_name context r2 →
      (∀ r ∈ pre, final_score psearch block_name context r <
        final_score psearch block_name context r1) →
      (∀ r ∈ pre ++ (r1 :: (mid ++ (r2 :: post))),
        final_score psearch block_name context r ≤
          final_score psearch block_name context r1) →
      (0.5 : ℚ) < final_score psearch block_name context r1 →
      classify_by_rules psearch pct (pre ++ (r1 :: (mid ++ (r2 :: post)))) block_name
          context =
        rule_classification psearch pct block_name context r1) := by
  constructor
  · intro psearch pct block_name context rule rest bm bc hle
    rcases match_keywords_eq_zero_or_one psearch block_name rule.keywords with h0 | h1
    · simp only [classify_scan, h0]
      rw [if_neg (lt_irrefl (0 : ℚ))]
    · simp only [classify_scan, h1]
      rw [if_pos (by norm_num : (0 : ℚ) < 1), if_neg (not_lt.mpr hle)]
  · intro psearch pct block_name context pre mid post r1 r2 heq hpre hall hgt
    have hmem : r1 ∈ pre ++ (r1 :: (mid ++ (r2 :: post))) := by simp
    have hbestle :
        best_final_score psearch block_name context (pre ++ (r1 :: (mid ++ (r2 :: post)))) ≤
          final_score psearch block_name context r1 :=
      fold_max_score_le _ _ _ 0
        (le_of_lt (lt_trans (by norm_num) hgt)) hall
    have hbestge :
        final_score psearch block_name context r1 ≤
          best_final_score psearch block_name context (pre ++ (r1 :: (mid ++ (r2 :: post)))) :=
      le_fold_max_score_of_mem _ _ 0 r1 hmem
    have hbest :
        best_final_score psearch block_name context (pre ++ (r1 :: (mid ++ (r2 :: post)))) =
          final_score psearch block_name context r1 :=
      le_antisymm hbestle hbestge
    obtain ⟨rule, hbr, hcls, _⟩ :=
      (classify_by_rules_spec psearch pct (pre ++ (r1 :: (mid ++ (r2 :: post))))
        block_name context).1 (by rw [hbest]; exact hgt)
    have hnone :
        List.find? (fun r =>
          decide (final_score psearch block_name context r =
            best_final_score psearch block_name context
              (pre ++ (r1 :: (mid ++ (r2 :: post)))))) pre = none := by
      rw [List.find?_eq_none]
      intro r hr
      simp only [decide_eq_true_eq, hbest]
      exact ne_of_lt (hpre r hr)
    have hfind :
        List.find? (fun r =>
          decide (final_score psearch block_name context r =
            best_final_score psearch block_name context
              (pre ++ (r1 :: (mid ++ (r2 :: post))))))
          (pre ++ (r1 :: (mid ++ (r2 :: post)))) = some r1 := by
      rw [find?_append_none _ _ _ hnone]
      exact List.find?_cons_of_pos _ (by simp [hbest])
    have hr1 : rule = r1 := by
      unfold best_rule at hbr
      rw [hfind] at hbr
      exact (Option.some.inj hbr).symm
    rw [hcls, hr1]

/-- Witness for C2: a synthetic two-rule table with equal base confidence
and the same keyword resolves to the first rule. -/
def tie_rule_a : Rule :=
  { category := "parking", type := "basic", confidence := 0.9, keywords := ["N"] }

/-- Second rule of the synthetic tie table. -/
def tie_rule_b : Rule :=
  { category := "structure", type := "wall", confidence := 0.9, keywords := ["N"] }

theorem claim2_tie_break_witness :
    (classify_scan psearch_lit pct0 "N" no_context (tie_rule_a :: []) none 1 =
      classify_scan psearch_lit pct0 "N" no_context [] none 1) ∧
    (classify_by_rules psearch_lit pct0 ([] ++ tie_rule_a :: [] ++ tie_rule_b :: [])
        "N" no_context =
      rule_classification psearch_lit pct0 "N" no_context tie_rule_a) :=
  ⟨claim2_tie_break.1 psearch_lit pct0 "N" no_context tie_rule_a [] none 1
      (by with_unfolding_all decide),
   claim2_tie_break.2 psearch_lit pct0 "N" no_context [] [] [] tie_rule_a tie_rule_b
     (by with_unfolding_all decide)
     (by simp)
     (by with_unfolding_all decide)
     (by with_unfolding_all decide)⟩

/-! Claim C3 compares `_match_geometry` against the claimed factor
decomposition.  `area_factor_spec`/`vertex_factor_spec` are modelled from
the specification's words; `area_factor`/`vertex_factor` describe what the
code actually computes (a supplied value of exactly 0 is falsy in Python
and neutralises the check). -/

/-- The area factor exactly as the claim words it: 1.0 inside the declared
range, 0.3 below half the range minimum or above double the range maximum,
0.7 otherwise; 1.0 when the rule declares no range or the context supplies
no value. -/
def area_factor_spec (range? : Option (ℚ × ℚ)) (area? : Option ℚ) : ℚ :=
  match range?, area? with
  | some (min_area, max_area), some area =>
    if min_area ≤ area ∧ area ≤ max_area then 1
    else if area < min_area * 0.5 ∨ max_area * 2 < area then 0.3
    else 0.7
  | _, _ => 1

/-- The vertex-count factor as the claim words it: 1.0 inside the declared
range, 0.5 outside; 1.0 when no range or no value. -/
def vertex_factor_spec (range? : Option (ℤ × ℤ)) (vertex_count? : Option ℤ) : ℚ :=
  match range?, vertex_count? with
  | some (min_v, max_v), some vertex_count =>
    if min_v ≤ vertex_count ∧ vertex_count ≤ max_v then 1 else 0.5
  | _, _ => 1

/-- The area factor the code actually computes: like the claimed factor,
except that a supplied area of exactly 0 is Python-falsy and neutral. -/
def area_factor (range? : Option (ℚ × ℚ)) (area? : Option ℚ) : ℚ :=
  match range?, area? with
  | some (min_area, max_area), some area =>
    if area = 0 then 1
    else if min_area ≤ area ∧ area ≤ max_area then 1
    else if area < min_area * 0.5 ∨ max_area * 2 < area then 0.3
    else 0.7
  | _, _ => 1

/-- The vertex-count factor the code actually computes: a supplied count
of exactly 0 is Python-falsy and neutral. -/
def vertex_factor (range? : Option (ℤ × ℤ)) (vertex_count? : Option ℤ) : ℚ :=
  match range?, vertex_count? with
  | some (min_v, max_v), some vertex_count =>
    if vertex_count = 0 then 1
    else if min_v ≤ vertex_count ∧ vertex_count ≤ max_v then 1 else 0.5
  | _, _ => 1

/-- A wall-like rule with declared area range (1, 4), used to refute C3 as
stated. -/
def zero_area_rule : Rule :=
  { category := "structure", type := "wall", confidence := 0.95,
    keywords := ["WALL"], area_range := some (1, 4) }

/-- A context supplying `area = 0.0`. -/
def zero_area_context : Context := { area := some 0 }

/-- Counterexample to C3 as stated: with declared range (1, 4) and a
supplied area of 0 — which lies below half the range minimum, so the
claimed factor is 0.3 — the code's geometry score is 1, because Python's
truthiness test skips the check for a zero area. -/
theorem claim3_geometry_factor_counterexample :
    match_geometry zero_area_context zero_area_rule = 1 ∧
    area_factor_spec zero_area_rule.area_range zero_area_context.area *
      vertex_factor_spec zero_area_rule.vertex_range zero_area_context.vertex_count =
      0.3 ∧
    match_geometry zero_area_context zero_area_rule ≠
      area_factor_spec zero_area_rule.area_range zero_area_context.area *
        vertex_factor_spec zero_area_rule.vertex_range
          zero_area_context.vertex_count := by
  refine ⟨?_, ?_, ?_⟩ <;> with_unfolding_all decide

/-- Claim C3 (amended): the geometry score is the product of an area
factor and a vertex-count factor following the claimed case split, except
that a supplied value of exactly 0 is treated like an absent value and
contributes the neutral factor 1.0 for its axis. -/
theorem claim3_geometry_factor_amended (context : Context) (rule : Rule) :
    match_geometry context rule =
      area_factor rule.area_range context.area *
        vertex_factor rule.vertex_range context.vertex_count := by
  obtain ⟨cat, ty, conf, kws, ar, vr⟩ := rule
  obtain ⟨a?, v?⟩ := context
  unfold match_geometry area_factor vertex_factor
  rcases ar with _ | ⟨mn, mx⟩ <;> rcases a? with _ | a <;>
    rcases vr with _ | ⟨mv, mV⟩ <;> rcases v? with _ | v <;>
      dsimp only <;> (try split_ifs) <;> norm_num

/-! Claim C10: zero-valued context entries are neutral. -/

lemma match_geometry_zero_area (v : Option ℤ) (rule : Rule) :
    match_geometry { area := some 0, vertex_count := v } rule =
      match_geometry { area := none, vertex_count := v } rule := by
  obtain ⟨cat, ty, conf, kws, ar, vr⟩ := rule
  unfold match_geometry
  rcases ar with _ | ⟨mn, mx⟩ <;> simp

lemma match_geometry_zero_vertex (a : Option ℚ) (rule : Rule) :
    match_geometry { area := a, vertex_count := some 0 } rule =
      match_geometry { area := a, vertex_count := none } rule := by
  obtain ⟨cat, ty, conf, kws, ar, vr⟩ := rule
  unfold match_geometry
  rcases vr with _ | ⟨mv, mV⟩ <;> simp

/-- The scan only sees the context through `match_geometry`. -/
lemma classify_scan_context_congr (psearch : PatternSearch) (pct : PercentFormat)
    (block_name : String) (c1 c2 : Context)
    (h : ∀ rule : Rule, match_geometry c1 rule = match_geometry c2 rule) :
    ∀ (rules : List Rule) (best_match : Option Classification) (best_confidence : ℚ),
      classify_scan psearch pct block_name c1 rules best_match best_confidence =
        classify_scan psearch pct block_name c2 rules best_match best_confidence := by
  intro rules
  induction rules with
  | nil => intro bm bc; rfl
  | cons rule rest ih =>
    intro bm bc
    have hf : final_score psearch block_name c1 rule =
        final_score psearch block_name c2 rule := by
      unfold final_score; rw [h]
    have hrc : rule_classification psearch pct block_name c1 rule =
        rule_classification psearch pct block_name c2 rule := by
      unfold rule_classification
      rw [h, hf]
    simp only [classify_scan]
    rw [hf, hrc]
    simp only [ih]

/-- `classify` only sees the context through `match_geometry`. -/
lemma classify_context_congr (psearch : PatternSearch) (pct : PercentFormat)
    (rules : List Rule) (enable_cache : Bool) (now : Nat)
    (cache : ClassificationCache) (block_name : String) (c1 c2 : Context)
    (h : ∀ rule : Rule, match_geometry c1 rule = match_geometry c2 rule) :
    classify psearch pct rules enable_cache now cache block_name c1 =
      classify psearch pct rules enable_cache now cache block_name c2 := by
  have hbr : classify_by_rules psearch pct rules block_name c1 =
      classify_by_rules psearch pct rules block_name c2 := by
    unfold classify_by_rules
    rw [classify_scan_context_congr psearch pct block_name c1 c2 h rules none 0]
  unfold classify
  rw [hbr]

/-- Claim C10: a context supplying `area = 0.0` (or `vertex_count = 0`) is
treated exactly as if that key were absent — the zero value is falsy for
the Python lookup, so the geometry check is skipped and classification
coincides with the missing-key context, against any rule table, even rules
whose declared range would otherwise score the value far out of range. -/
theorem claim10_zero_context_neutral (psearch : PatternSearch) (pct : PercentFormat)
    (rules : List Rule) (block_name : String) :
    (∀ (v : Option ℤ) (enable_cache : Bool) (now : Nat) (cache : ClassificationCache),
      classify psearch pct rules enable_cache now cache block_name
          { area := some 0, vertex_count := v } =
        classify psearch pct rules enable_cache now cache block_name
          { area := none, vertex_count := v }) ∧
    (∀ (a : Option ℚ) (enable_cache : Bool) (now : Nat) (cache : ClassificationCache),
      classify psearch pct rules enable_cache now cache block_name
          { area := a, vertex_count := some 0 } =
        classify psearch pct rules enable_cache now cache block_name
          { area := a, vertex_count := none }) := by
  constructor
  · intro v enable_cache now cache
    exact classify_context_congr psearch pct rules enable_cache now cache block_name
      _ _ (match_geometry_zero_area v)
  · intro a enable_cache now cache
    exact classify_context_congr psearch pct rules enable_cache now cache block_name
      _ _ (match_geometry_zero_vertex a)

/-- Claim C8: classification is deterministic (a pure function of its
inputs) and, with caching enabled, any call after the first for the same
name is served from the cache: it returns the first call's
category/type/confidence with method tag `cached`, leaves the cache
unchanged, and ignores the rule table, pattern engine and context of the
second call entirely — all rule scoring is short-circuited. -/
theorem claim8_cache_determinism (psearch psearch2 : PatternSearch)
    (pct pct2 : PercentFormat) (rules rules2 : List Rule) (now now2 : Nat)
    (cache : ClassificationCache) (block_name : String) (context context2 : Context) :
    (cache block_name = none →
      (classify psearch2 pct2 rules2 true now2
          (classify psearch pct rules true now cache block_name context).2
          block_name context2).1.category =
        (classify psearch pct rules true now cache block_name context).1.category ∧
      (classify psearch2 pct2 rules2 true now2
          (classify psearch pct rules true now cache block_name context).2
          block_name context2).1.type =
        (classify psearch pct rules true now cache block_name context).1.type ∧
      (classify psearch2 pct2 rules2 true now2
          (classify psearch pct rules true now cache block_name context).2
          block_name context2).1.confidence =
        (classify psearch pct rules true now cache block_name context).1.confidence ∧
      (classify psearch2 pct2 rules2 true now2
          (classify psearch pct rules true now cache block_name context).2
          block_name context2).1.method = "cached" ∧
      (classify psearch2 pct2 rules2 true now2
          (classify psearch pct rules true now cache block_name context).2
          block_name context2).2 =
        (classify psearch pct rules true now cache block_name context).2) ∧
    (∀ entry, cache block_name = some entry →
      classify psearch pct rules true now cache block_name context =
        ({ category := entry.category, type := entry.type,
           confidence := entry.confidence, reasoning := entry.reasoning,
           method := "cached" }, cache)) ∧
    (classify psearch pct rules false now cache block_name context =
      (classify_by_rules psearch pct rules block_name context, cache)) := by
  refine ⟨?_, ?_, ?_⟩
  · intro h
    refine ⟨?_, ?_, ?_, ?_, ?_⟩ <;> simp [classify, h, cache_set]
  · intro entry h
    simp [classify, h]
  · rfl

/-- The empty classification cache. -/
def empty_cache_cls : ClassificationCache := fun _ => none

/-- A sample cache entry used in the C8 witness. -/
def sample_entry : CacheEntry :=
  { category := "parking", type := "basic", confidence := 0.9, reasoning := "r" }

/-- A cache holding `sample_entry` for every name. -/
def singleton_cache : ClassificationCache := fun _ => some sample_entry

/-- Witness for C8: a first call on an empty cache followed by a second
call (with a different rule table and timestamp) that is served from the
cache, and a direct cache hit. -/
theorem claim8_cache_determinism_witness :
    ((classify psearch_lit pct0 [] true 1
        (classify psearch_lit pct0 build_rules true 0 empty_cache_cls "PARK"
          no_context).2 "PARK" no_context).1.category =
      (classify psearch_lit pct0 build_rules true 0 empty_cache_cls "PARK"
        no_context).1.category ∧
     (classify psearch_lit pct0 [] true 1
        (classify psearch_lit pct0 build_rules true 0 empty_cache_cls "PARK"
          no_context).2 "PARK" no_context).1.type =
      (classify psearch_lit pct0 build_rules true 0 empty_cache_cls "PARK"
        no_context).1.type ∧
     (classify psearch_lit pct0 [] true 1
        (classify psearch_lit pct0 build_rules true 0 empty_cache_cls "PARK"
          no_context).2 "PARK" no_context).1.confidence =
      (classify psearch_lit pct0 build_rules true 0 empty_cache_cls "PARK"
        no_context).1.confidence ∧
     (classify psearch_lit pct0 [] true 1
        (classify psearch_lit pct0 build_rules true 0 empty_cache_cls "PARK"
          no_context).2 "PARK" no_context).1.method = "cached" ∧
     (classify psearch_lit pct0 [] true 1
        (classify psearch_lit pct0 build_rules true 0 empty_cache_cls "PARK"
          no_context).2 "PARK" no_context).2 =
      (classify psearch_lit pct0 build_rules true 0 empty_cache_cls "PARK"
        no_context).2) ∧
    (classify psearch_lit pct0 build_rules true 0 singleton_cache "PARK" no_context =
      ({ category := sample_entry.category, type := sample_entry.type,
         confidence := sample_entry.confidence, reasoning := sample_entry.reasoning,
         method := "cached" }, singleton_cache)) :=
  ⟨(claim8_cache_determinism psearch_lit psearch_lit pct0 pct0 build_rules [] 0 1
      empty_cache_cls "PARK" no_context no_context).1 rfl,
   (claim8_cache_determinism psearch_lit psearch_lit pct0 pct0 build_rules [] 0 1
      singleton_cache "PARK" no_context no_context).2.1 sample_entry rfl⟩

/-! The geometry processor (`src/core/geometry_processor.py`) and the block
extractor (`src/core/block_extractor.py`).  The trigonometric library is
abstracted as a `Trig` oracle: `cosd θ` / `sind θ` stand for
`math.cos(math.radians(θ))` / `math.sin(math.radians(θ))` of an angle θ
given in degrees. -/

/-- Trigonometric oracle (degree-based cosine and sine). -/
structure Trig where
  cosd : ℚ → ℚ
  sind : ℚ → ℚ

/-- `GeometryProcessor.calculate_area`: absolute shoelace area, 0 for
fewer than three vertices. -/
def calculate_area (vertices : List (ℚ × ℚ)) : ℚ :=
  if vertices.length < 3 then 0
  else
    let n := vertices.length
    let signed := (List.range n).foldl (fun area i =>
      let p := vertices.getD i (0, 0)
      let q := vertices.getD ((i + 1) % n) (0, 0)
      area + p.1 * q.2 - q.1 * p.2) 0
    |signed| / 2

/-- `GeometryProcessor.transform_vertices`: per vertex, scale by the X/Y
factors, rotate about the origin by the rotation angle (degrees), then
translate by the insertion point. -/
def transform_vertices (trig : Trig) (vertices : List (ℚ × ℚ))
    (insert_point : ℚ × ℚ) (rotation : ℚ)
    (scale_x : ℚ := 1) (scale_y : ℚ := 1) : List (ℚ × ℚ) :=
  if vertices.isEmpty then []
  else
    let cos_r := trig.cosd rotation
    let sin_r := trig.sind rotation
    vertices.map (fun v =>
      let x := v.1 * scale_x
      let y := v.2 * scale_y
      let x_rot := x * cos_r - y * sin_r
      let y_rot := x * sin_r + y * cos_r
      (x_rot + insert_point.1, y_rot + insert_point.2))

/-- `GeometryProcessor.extract_circle_vertices`: a circle tessellated into
`segments` points; the angle `2π·i/segments` equals `360·i/segments`
degrees. -/
def extract_circle_vertices (trig : Trig) (center : ℚ × ℚ) (radius : ℚ)
    (segments : ℕ := 32) : List (ℚ × ℚ) :=
  (List.range segments).map (fun i =>
    let c := trig.cosd (360 * (i : ℚ) / segments)
    let s := trig.sind (360 * (i : ℚ) / segments)
    (center.1 + radius * c, center.2 + radius * s))

/-- Independent X/Y scaling of one point (specification-side). -/
def scale_point (scale_x scale_y : ℚ) (p : ℚ × ℚ) : ℚ × ℚ :=
  (p.1 * scale_x, p.2 * scale_y)

/-- Rotation of one point about the origin, given cosine and sine of the
angle (specification-side). -/
def rotate_point (cos_r sin_r : ℚ) (p : ℚ × ℚ) : ℚ × ℚ :=
  (p.1 * cos_r - p.2 * sin_r, p.1 * sin_r + p.2 * cos_r)

/-- Translation of one point (specification-side). -/
def translate_point (t : ℚ × ℚ) (p : ℚ × ℚ) : ℚ × ℚ :=
  (p.1 + t.1, p.2 + t.2)

/-- A side-10 square centered at the origin. -/
def square10 : List (ℚ × ℚ) := [(-5, -5), (5, -5), (5, 5), (-5, 5)]

/-- An INSERT entity: referenced block name and placement (insertion
point, rotation in degrees, X/Y scale — `xscale`/`yscale` default to 1.0
as in `getattr(insert_entity.dxf, 'xscale', 1.0)`). -/
structure InsertRef where
  name : String
  insert : ℚ × ℚ
  rotation : ℚ
  xscale : ℚ := 1
  yscale : ℚ := 1
  deriving DecidableEq

/-- A primitive entity inside a block (or the modelspace), discriminated
by its `dxftype()`. -/
inductive BlockEntity where
  | lwpolyline (points : List (ℚ × ℚ))
  | polyline (points : List (ℚ × ℚ))
  | circle (center : ℚ × ℚ) (radius : ℚ)
  | insert (ref : InsertRef)
  | other
  deriving DecidableEq

/-- A block definition: name and direct entities. -/
structure Block where
  name : String
  entities : List BlockEntity
  deriving DecidableEq

/-- The document store: modelspace entities and name-keyed block lookup
(absent names yield `none`, as required of the collaborator). -/
structure Doc where
  modelspace : List BlockEntity
  blocks : String → Option Block

/-- `BlockExtractor.block_geometry_cache`. -/
abbrev GeomCache : Type := String → Option (List (ℚ × ℚ))

/-- `ExtractedEntity` of `src/models/extracted_entity.py`. -/
structure ExtractedEntity where
  block_name : String
  geometry_type : String
  vertices : List (ℚ × ℚ)
  area : Option ℚ
  insert_point : ℚ × ℚ
  rotation : ℚ
  classification : Option Classification := none
  deriving DecidableEq

/-- The per-entity vertex extraction in `_extract_block_geometry`:
LWPOLYLINE and POLYLINE points, tessellated circles; anything else
(including nested INSERTs) contributes nothing. -/
def entity_vertices (trig : Trig) : BlockEntity → Option (List (ℚ × ℚ))
  | .lwpolyline points => some points
  | .polyline points => some points
  | .circle center radius => some (extract_circle_vertices trig center radius)
  | _ => none

/-- The loop of `_extract_block_geometry`: keep the vertex list of maximal
area among primitives with at least three vertices. -/
def largest_polyline (trig : Trig) :
    List BlockEntity → Option (List (ℚ × ℚ)) → ℚ → Option (List (ℚ × ℚ))
  | [], largest, _ => largest
  | entity :: rest, largest, largest_area =>
    match entity_vertices trig entity with
    | some vertices =>
      if 3 ≤ vertices.length then
        if largest_area < calculate_area vertices then
          largest_polyline trig rest (some vertices) (calculate_area vertices)
        else largest_polyline trig rest largest largest_area
      else largest_polyline trig rest largest largest_area
    | none => largest_polyline trig rest largest largest_area

/-- `BlockExtractor._extract_block_geometry` with the cache state passed
explicitly: cache probe, scan for the largest polyline, cache store.  The
store is guarded by Python truthiness (`if largest_polyline:`), so an
empty list would not be cached. -/
def extract_block_geometry (trig : Trig) (block : Block) (cache : GeomCache) :
    Option (List (ℚ × ℚ)) × GeomCache :=
  match cache block.name with
  | some cached => (some cached, cache)
  | none =>
    match largest_polyline trig block.entities none 0 with
    | some vertices =>
      if vertices.isEmpty then (some vertices, cache)
      else (some vertices, fun k => if k = block.name then some vertices else cache k)
    | none => (none, cache)

/-- The `if geometry:` body of `_extract_from_insert`: transform the
resolved geometry by the instance's own placement (and nothing else) and
build the `ExtractedEntity`. -/
def build_entity (trig : Trig) (ins : InsertRef) (geometry : List (ℚ × ℚ)) :
    ExtractedEntity :=
  let insert_point := ins.insert
  let transformed :=
    transform_vertices trig geometry insert_point ins.rotation ins.xscale ins.yscale
  { block_name := ins.name
    geometry_type := "LWPOLYLINE"
    vertices := transformed
    area := some (calculate_area transformed)
    insert_point := insert_point
    rotation := ins.rotation }

/-- The own entities (zero or one) an INSERT contributes given its
block's resolved geometry: the `if geometry:` guard is Python truthiness,
so `none` and the empty list both contribute nothing. -/
def own_entities (trig : Trig) (ins : InsertRef)
    (geometry? : Option (List (ℚ × ℚ))) : List ExtractedEntity :=
  match geometry? with
  | none => []
  | some geometry =>
    if geometry.isEmpty then [] else [build_entity trig ins geometry]

/-- The `for nested_entity in block` loop (also the modelspace loop of
`extract_all_blocks`): visit every INSERT in order with `step`, threading
the geometry cache and concatenating the results. -/
def walk_inserts (step : InsertRef → GeomCache → List ExtractedEntity × GeomCache) :
    List BlockEntity → GeomCache → List ExtractedEntity × GeomCache
  | [], cache => ([], cache)
  | BlockEntity.insert ins :: rest, cache =>
    let r := step ins cache
    let r2 := walk_inserts step rest r.2
    (r.1 ++ r2.1, r2.2)
  | _ :: rest, cache => walk_inserts step rest cache

/-- `BlockExtractor._extract_from_insert`, in fuel form: the fuel is
`max_depth + 1 - depth`, so fuel 0 is exactly the guard `depth > max_depth`
(return `[]` with a warning) and every recursive step increments the
depth.  Missing block definitions yield `[]`; a truthy resolved geometry
contributes one own entity; nested INSERTs are then visited either way. -/
def extract_from_insert_core (trig : Trig) (doc : Doc) :
    ℕ → InsertRef → GeomCache → List ExtractedEntity × GeomCache
  | 0 => fun _ cache => ([], cache)
  | fuel + 1 => fun ins cache =>
    match doc.blocks ins.name with
    | none => ([], cache)
    | some block =>
      let pg := extract_block_geometry trig block cache
      let own := own_entities trig ins pg.1
      let nested := walk_inserts (extract_from_insert_core trig doc fuel)
        block.entities pg.2
      (own ++ nested.1, nested.2)

/-- `_extract_from_insert` with the source's `depth`/`max_depth`
signature. -/
def extract_from_insert (trig : Trig) (doc : Doc) (insert_entity : InsertRef)
    (depth max_depth : ℕ) (cache : GeomCache) : List ExtractedEntity × GeomCache :=
  extract_from_insert_core trig doc (max_depth + 1 - depth) insert_entity cache

/-- `BlockExtractor.extract_all_blocks`: every INSERT of the modelspace at
depth 0, with a fresh geometry cache. -/
def extract_all_blocks (trig : Trig) (doc : Doc) (max_depth : ℕ := 10) :
    List ExtractedEntity × GeomCache :=
  walk_inserts (fun ins cache => extract_from_insert trig doc ins 0 max_depth cache)
    doc.modelspace (fun _ => none)

/-- The own entity (zero or one) an INSERT contributes, as a function of
the instance's own fields and its block's resolved geometry only. -/
def own_entity_of (trig : Trig) (doc : Doc) (ins : InsertRef)
    (depth max_depth : ℕ) (cache : GeomCache) : List ExtractedEntity :=
  if max_depth < depth then []
  else
    match doc.blocks ins.name with
    | none => []
    | some block => own_entities trig ins (extract_block_geometry trig block cache).1

/-- A placeholder trigonometric oracle for concrete documents that only
use rotation 0 (cos 0 = 1, sin 0 = 0). -/
def trivial_trig : Trig := ⟨fun _ => 1, fun _ => 0⟩

/-- A 4-4-3 right triangle with area 6. -/
def tri : List (ℚ × ℚ) := [(0, 0), (4, 0), (0, 3)]

/-- The INSERT referencing chain block `i`. -/
def chain_insert (i : ℕ) : InsertRef := ⟨"C" ++ toString i, (0, 0), 0, 1, 1⟩

/-- Chain block `i`: a triangle plus an INSERT of block `i+1` (last block
at index 14). -/
def chain_block (i : ℕ) : Block :=
  ⟨"C" ++ toString i,
    BlockEntity.lwpolyline tri ::
      (if i + 1 < 15 then [BlockEntity.insert (chain_insert (i + 1))] else [])⟩

/-- A document with an instance-reference chain of depth 15. -/
def chain_doc : Doc :=
  ⟨[BlockEntity.insert (chain_insert 0)],
    fun name => ((List.range 15).map chain_block).find? (fun b => b.name == name)⟩

/-- The self-referencing INSERT. -/
def cyclic_insert : InsertRef := ⟨"S", (0, 0), 0, 1, 1⟩

/-- A block containing an INSERT of itself. -/
def cyclic_block : Block :=
  ⟨"S", [BlockEntity.lwpolyline tri, BlockEntity.insert cyclic_insert]⟩

/-- A document whose single block references itself. -/
def cyclic_doc : Doc :=
  ⟨[BlockEntity.insert cyclic_insert],
    fun name => if name = "S" then some cyclic_block else none⟩

/-! Theorems about the geometry processor and the block extractor. -/

/-- Claim C4: `transform_vertices` applies to each vertex, in fixed order,
independent X/Y scaling, then rotation about the origin, then translation
by the insertion point; the side-10 origin-centered square under scale
(2,1), rotation 90° and translation (100,100) yields exactly the
scale→rotate→translate composition's coordinates and not those of the
rotate→scale→translate order. -/
theorem claim4_transform_order :
    (∀ (trig : Trig) (vertices : List (ℚ × ℚ)) (insert_point : ℚ × ℚ)
        (rotation scale_x scale_y : ℚ),
      transform_vertices trig vertices insert_point rotation scale_x scale_y =
        vertices.map (fun v =>
          translate_point insert_point
            (rotate_point (trig.cosd rotation) (trig.sind rotation)
              (scale_point scale_x scale_y v)))) ∧
    (∀ trig : Trig, trig.cosd 90 = 0 → trig.sind 90 = 1 →
      transform_vertices trig square10 (100, 100) 90 2 1 =
        [(105, 90), (105, 110), (95, 110), (95, 90)] ∧
      transform_vertices trig square10 (100, 100) 90 2 1 ≠
        square10.map (fun v =>
          translate_point (100, 100) (scale_point 2 1 (rotate_point 0 1 v)))) := by
  constructor
  · intro trig vertices insert_point rotation scale_x scale_y
    cases vertices <;> rfl
  · intro trig h0 h1
    have hval : transform_vertices trig square10 (100, 100) 90 2 1 =
        [(105, 90), (105, 110), (95, 110), (95, 90)] := by
      unfold transform_vertices square10
      norm_num [h0, h1]
    refine ⟨hval, ?_⟩
    rw [hval]
    with_unfolding_all decide

/-- The degree-trig oracle matching the 90° witness: cos 90° = 0,
sin 90° = 1. -/
def rot90_trig : Trig := ⟨fun _ => 0, fun _ => 1⟩

/-- Witness for C4: the concrete square example at rotation 90°. -/
theorem claim4_transform_order_witness :
    transform_vertices rot90_trig square10 (100, 100) 90 2 1 =
      [(105, 90), (105, 110), (95, 110), (95, 90)] ∧
    transform_vertices rot90_trig square10 (100, 100) 90 2 1 ≠
      square10.map (fun v =>
        translate_point (100, 100) (scale_point 2 1 (rotate_point 0 1 v))) :=
  claim4_transform_order.2 rot90_trig rfl rfl

lemma own_entities_length (trig : Trig) (ins : InsertRef)
    (geometry? : Option (List (ℚ × ℚ))) :
    (own_entities trig ins geometry?).length ≤ 1 := by
  unfold own_entities
  rcases geometry? with _ | g
  · simp
  · dsimp only
    split <;> simp

/-- Claim C5: the entities extracted below an INSERT depend only on each
nested instance's own placement applied to its block's resolved geometry:
two instances of the same block with different placements (a parent
placement change) produce identical child entity lists and cache states,
differing at most in the parent's own entity, whose vertices are built
from the parent's own insertion point, rotation and scale alone. -/
theorem claim5_nested_no_parent_transform (trig : Trig) (doc : Doc)
    (depth max_depth : ℕ) (cache : GeomCache) (ins ins' : InsertRef)
    (hname : ins.name = ins'.name) :
    (extract_from_insert trig doc ins depth max_depth cache).2 =
      (extract_from_insert trig doc ins' depth max_depth cache).2 ∧
    ∃ children : List ExtractedEntity,
      (extract_from_insert trig doc ins depth max_depth cache).1 =
        own_entity_of trig doc ins depth max_depth cache ++ children ∧
      (extract_from_insert trig doc ins' depth max_depth cache).1 =
        own_entity_of trig doc ins' depth max_depth cache ++ children ∧
      (own_entity_of trig doc ins depth max_depth cache).length ≤ 1 ∧
      (own_entity_of trig doc ins' depth max_depth cache).length ≤ 1 := by
  unfold extract_from_insert own_entity_of
  rcases hfuel : max_depth + 1 - depth with _ | fuel
  · have hlt : max_depth < depth := by omega
    simp only [if_pos hlt, extract_from_insert_core]
    exact ⟨by simp, [], by simp, by simp, by simp, by simp⟩
  · have hnlt : ¬ max_depth < depth := by omega
    simp only [if_neg hnlt, extract_from_insert_core]
    rw [← hname]
    rcases hb : doc.blocks ins.name with _ | block
    · exact ⟨by simp, [], by simp, by simp, by simp, by simp⟩
    · exact ⟨by simp,
        (walk_inserts (extract_from_insert_core trig doc fuel) block.entities
          (extract_block_geometry trig block cache).2).1,
        by simp, by simp, own_entities_length _ _ _, own_entities_length _ _ _⟩

/-- Two instances of block `Q` used in the C5 witness. -/
def parent_insert_a : InsertRef := ⟨"P", (0, 0), 0, 1, 1⟩

/-- The same block instantiated with a different placement. -/
def parent_insert_b : InsertRef := ⟨"P", (50, 7), 90, 2, 3⟩

/-- Parent block of the C5 witness: a triangle plus a child INSERT. -/
def parent_block : Block :=
  ⟨"P", [BlockEntity.lwpolyline tri, BlockEntity.insert ⟨"Q", (1, 2), 0, 1, 1⟩]⟩

/-- Child block of the C5 witness. -/
def child_block : Block := ⟨"Q", [BlockEntity.lwpolyline tri]⟩

/-- Document of the C5 witness. -/
def parent_doc : Doc :=
  ⟨[BlockEntity.insert parent_insert_a],
    fun name =>
      if name = "P" then some parent_block
      else if name = "Q" then some child_block
      else none⟩

/-- Witness for C5: moving/rotating/scaling the parent instance leaves the
child entities (and the geometry cache) unchanged. -/
theorem claim5_nested_no_parent_transform_witness :
    (extract_from_insert trivial_trig parent_doc parent_insert_a 0 10
        (fun _ => none)).2 =
      (extract_from_insert trivial_trig parent_doc parent_insert_b 0 10
        (fun _ => none)).2 ∧
    ∃ children : List ExtractedEntity,
      (extract_from_insert trivial_trig parent_doc parent_insert_a 0 10
          (fun _ => none)).1 =
        own_entity_of trivial_trig parent_doc parent_insert_a 0 10
          (fun _ => none) ++ children ∧
      (extract_from_insert trivial_trig parent_doc parent_insert_b 0 10
          (fun _ => none)).1 =
        own_entity_of trivial_trig parent_doc parent_insert_b 0 10
          (fun _ => none) ++ children ∧
      (own_entity_of trivial_trig parent_doc parent_insert_a 0 10
          (fun _ => none)).length ≤ 1 ∧
      (own_entity_of trivial_trig parent_doc parent_insert_b 0 10
          (fun _ => none)).length ≤ 1 :=
  claim5_nested_no_parent_transform trivial_trig parent_doc 0 10 (fun _ => none)
    parent_insert_a parent_insert_b rfl

set_option maxRecDepth 400000 in
/-- Claim C6: extraction is depth-bounded and terminates: a node reached
at depth d > max_depth stops descent there returning no entities; the
depth-15 instance-reference chain with max_depth 10 yields exactly the
entities of depths 0–10; a self-referencing block graph is truncated at
the depth bound (3 entities for max_depth 2) because the depth strictly
increases on each recursive step. -/
theorem claim6_depth_bound :
    (∀ (trig : Trig) (doc : Doc) (ins : InsertRef) (depth max_depth : ℕ)
        (cache : GeomCache),
      max_depth < depth →
      extract_from_insert trig doc ins depth max_depth cache = ([], cache)) ∧
    ((extract_all_blocks trivial_trig chain_doc 10).1.map (fun e => e.block_name) =
      (List.range 11).map (fun i => "C" ++ toString i)) ∧
    ((extract_all_blocks trivial_trig cyclic_doc 2).1.length = 3) := by
  refine ⟨?_, ?_, ?_⟩
  · intro trig doc ins depth max_depth cache h
    unfold extract_from_insert
    rw [Nat.sub_eq_zero_of_le (by omega)]
    rfl
  · with_unfolding_all decide
  · with_unfolding_all decide

/-- Witness for C6: descent is refused at depth 11 with max_depth 10. -/
theorem claim6_depth_bound_witness :
    extract_from_insert trivial_trig chain_doc (chain_insert 0) 11 10
        (fun _ => none) =
      ([], (fun _ => none : GeomCache)) :=
  claim6_depth_bound.1 trivial_trig chain_doc (chain_insert 0) 11 10 (fun _ => none)
    (by norm_num)

set_option maxRecDepth 400000 in
/-- Counterexample to C7 as stated: a block that resolves to no polygon is
not memoized (`if largest_polyline:` fails), so nothing is stored under
its name and a later resolution for the same name re-scans the primitive
list (here: after adding a triangle, the same name resolves differently,
which a cache hit could never do). -/
theorem claim7_memoization_counterexample :
    (extract_block_geometry trivial_trig ⟨"B", []⟩ (fun _ => none)).1 = none ∧
    (extract_block_geometry trivial_trig ⟨"B", []⟩ (fun _ => none)).2 "B" = none ∧
    (extract_block_geometry trivial_trig ⟨"B", [BlockEntity.lwpolyline tri]⟩
        ((extract_block_geometry trivial_trig ⟨"B", []⟩ (fun _ => none)).2)).1 =
      some tri := by
  refine ⟨?_, ?_, ?_⟩ <;> with_unfolding_all decide

/-- `_extract_block_geometry` on a cache hit. -/
lemma extract_block_geometry_hit (trig : Trig) (block : Block) (cache : GeomCache)
    (v : List (ℚ × ℚ)) (h : cache block.name = some v) :
    extract_block_geometry trig block cache = (some v, cache) := by
  unfold extract_block_geometry
  rw [h]

/-- Claim C7 (amended): resolving the same block twice returns identical
results and the second call leaves the cache unchanged; whenever the cache
holds the block's name — which is always the case once a polygon has been
found — every further resolution for that name is a cache hit, independent
of the primitive list (no re-scan).  A block resolving to absent is not
memoized and is deterministically re-scanned on each call. -/
theorem claim7_memoization_amended (trig : Trig) (block : Block) (cache : GeomCache) :
    extract_block_geometry trig block
        (extract_block_geometry trig block cache).2 =
      extract_block_geometry trig block cache ∧
    (∀ v, (extract_block_geometry trig block cache).2 block.name = some v →
      ∀ entities2 : List BlockEntity,
        extract_block_geometry trig ⟨block.name, entities2⟩
            (extract_block_geometry trig block cache).2 =
          (some v, (extract_block_geometry trig block cache).2)) ∧
    ((extract_block_geometry trig block cache).1 = none →
      (extract_block_geometry trig block cache).2 = cache) := by
  refine ⟨?_, ?_, ?_⟩
  · rcases hc : cache block.name with _ | v
    · rcases hL : largest_polyline trig block.entities none 0 with _ | v
      · have h1 : extract_block_geometry trig block cache = (none, cache) := by
          unfold extract_block_geometry
          rw [hc, hL]
        rw [h1]
        exact h1
      · rcases hvE : v.isEmpty with hf | ht
        · -- a nonempty polygon is stored; the second call is a cache hit
          have h1 : extract_block_geometry trig block cache =
              (some v, fun k => if k = block.name then some v else cache k) := by
            unfold extract_block_geometry
            rw [hc, hL]
            simp [hvE]
          rw [h1]
          exact extract_block_geometry_hit trig block _ v (by simp)
        · -- degenerate: an empty polygon is returned but not cached
          have h1 : extract_block_geometry trig block cache = (some v, cache) := by
            unfold extract_block_geometry
            rw [hc, hL]
            simp [hvE]
          rw [h1]
          exact h1
    · have h1 : extract_block_geometry trig block cache = (some v, cache) :=
        extract_block_geometry_hit trig block cache v hc
      rw [h1]
      exact h1
  · intro v hv entities2
    exact extract_block_geometry_hit trig ⟨block.name, entities2⟩ _ v hv
  · intro hnone
    rcases hc : cache block.name with _ | v
    · rcases hL : largest_polyline trig block.entities none 0 with _ | v
      · unfold extract_block_geometry
        rw [hc, hL]
      · exfalso
        have h1 : (extract_block_geometry trig block cache).1 = some v := by
          unfold extract_block_geometry
          rw [hc, hL]
          dsimp only
          split <;> rfl
        rw [hnone] at h1
        exact Option.noConfusion h1
    · exfalso
      have h1 : (extract_block_geometry trig block cache).1 = some v := by
        rw [extract_block_geometry_hit trig block cache v hc]
      rw [hnone] at h1
      exact Option.noConfusion h1

/-- The block of the C7 witness: a single triangle. -/
def tri_block : Block := ⟨"T", [BlockEntity.lwpolyline tri]⟩

set_option maxRecDepth 400000 in
/-- Witness for C7 (amended): after resolving `tri_block` once, the name
`T` is memoized, and a resolution for `T` with a different (empty)
primitive list is still served from the cache. -/
theorem claim7_memoization_amended_witness :
    extract_block_geometry trivial_trig ⟨"T", []⟩
        ((extract_block_geometry trivial_trig tri_block (fun _ => none)).2) =
      (some tri, (extract_block_geometry trivial_trig tri_block (fun _ => none)).2) :=
  (claim7_memoization_amended trivial_trig tri_block (fun _ => none)).2.1 tri
    (by with_unfolding_all decide) []

/-- Claim C9: extraction absorbs per-node failures (the embedding is a
total function, so it cannot raise): an instance naming a block absent
from the store contributes no entities and its subtree is skipped; an
instance whose block resolves to no polygon contributes no own
`ExtractedEntity`, while its block's nested INSERTs are still visited. -/
theorem claim9_extraction_total (trig : Trig) (doc : Doc) (ins : InsertRef)
    (depth max_depth : ℕ) (cache : GeomCache) :
    (doc.blocks ins.name = none →
      extract_from_insert trig doc ins depth max_depth cache = ([], cache)) ∧
    (∀ block, doc.blocks ins.name = some block → depth ≤ max_depth →
      (extract_block_geometry trig block cache).1 = none →
      extract_from_insert trig doc ins depth max_depth cache =
        walk_inserts (extract_from_insert_core trig doc (max_depth - depth))
          block.entities (extract_block_geometry trig block cache).2) := by
  constructor
  · intro hb
    unfold extract_from_insert
    rcases hfuel : max_depth + 1 - depth with _ | fuel
    · rfl
    · simp only [extract_from_insert_core, hb]
  · intro block hb hle hg
    unfold extract_from_insert
    have hfuel : max_depth + 1 - depth = (max_depth - depth) + 1 := by omega
    rw [hfuel]
    simp only [extract_from_insert_core, hb, hg, own_entities]
    simp

/-- A block with no polygon primitives, only a dangling INSERT. -/
def empty_block : Block := ⟨"E", [BlockEntity.insert ⟨"MISSING", (0, 0), 0, 1, 1⟩]⟩

/-- The document of the C9 witness: block `E` exists, `MISSING` does not. -/
def missing_doc : Doc :=
  ⟨[BlockEntity.insert ⟨"E", (0, 0), 0, 1, 1⟩],
    fun name => if name = "E" then some empty_block else none⟩

/-- Witness for C9: the missing reference yields nothing, and the
polygon-less block contributes no own entity while its nested INSERT is
still visited. -/
theorem claim9_extraction_total_witness :
    (extract_from_insert trivial_trig missing_doc ⟨"MISSING", (0, 0), 0, 1, 1⟩ 0 10
        (fun _ => none) = ([], (fun _ => none : GeomCache))) ∧
    (extract_from_insert trivial_trig missing_doc ⟨"E", (0, 0), 0, 1, 1⟩ 0 10
        (fun _ => none) =
      walk_inserts (extract_from_insert_core trivial_trig missing_doc (10 - 0))
        empty_block.entities
        (extract_block_geometry trivial_trig empty_block (fun _ => none)).2) :=
  ⟨(claim9_extraction_total trivial_trig missing_doc ⟨"MISSING", (0, 0), 0, 1, 1⟩ 0 10
      (fun _ => none)).1 (by with_unfolding_all decide),
   (claim9_extraction_total trivial_trig missing_doc ⟨"E", (0, 0), 0, 1, 1⟩ 0 10
      (fun _ => none)).2 empty_block (by with_unfolding_all decide) (by norm_num)
      (by with_unfolding_all decide)⟩

end DxfParser
